import Mathlib

/-!
Verification of the analytics core of `src/analysis.py` (SNCF open-data
portfolio).  The Python functions `load_json_records`, `analyse_ridership`,
`analyse_punctuality`, `analyse_pricing`, `haversine` and
`estimate_emissions` are shallowly embedded below.  Conventions:

* a pandas/NumPy NaN (missing value) is `Option.none`;
* a raised Python exception is `Option.none` at the function result type
  (the functions that can raise return an `Option`);
* Python floats are idealised as `ℚ` where the code only does field
  arithmetic on data, and as `ℝ` where it calls transcendental functions
  (`haversine`);
* a pandas DataFrame is a list of rows, each row an association list from
  column names to cells.
-/

/-- A raw cell of a loaded table: a number, a string, or missing (NaN/None).
Numeric strings are modelled for (optionally signed) decimal integers,
which covers every cell the claims exercise. -/
inductive Cell where
  | num (q : ℚ)
  | str (s : String)
  | null
deriving DecidableEq

/-- Value of a list of decimal digit characters, most significant first. -/
def digitsToNat (cs : List Char) : Nat :=
  cs.foldl (fun n c => 10 * n + (c.toNat - 48)) 0

/-- Parse a nonempty all-digit character list (leading zeros allowed, as in
Python `int`). -/
def digitsVal (cs : List Char) : Option Nat :=
  if !cs.isEmpty && cs.all Char.isDigit then some (digitsToNat cs) else none

/-- Numeric parse of a string cell, as `pd.to_numeric(errors="coerce")`
does on integer-like strings; anything else is coerced to missing. -/
def parseNumStr (s : String) : Option ℚ :=
  match s.toList with
  | '-' :: rest => (digitsVal rest).map (fun n => -(n : ℚ))
  | cs => (digitsVal cs).map (fun n => (n : ℚ))

/-- `pd.to_numeric(x, errors="coerce")` on one cell. -/
def toNumeric : Cell → Option ℚ
  | .num q => some q
  | .str s => parseNumStr s
  | .null => none

/-- Store a coerced value back into a (now numeric-dtype) column: a number,
or NaN for a failed parse. -/
def numToCell : Option ℚ → Cell
  | some q => .num q
  | none => .null

/-- NumPy float division `x / y`: a finite quotient, or a non-finite value
(NaN/inf, modelled as `none`) when the divisor is zero.  No exception is
raised. -/
def fdiv (x y : ℚ) : Option ℚ :=
  if y = 0 then none else some (x / y)

/-- Lookup in an association list keyed by strings (Python dict access /
row field access). -/
def alget {α : Type} (d : List (String × α)) (k : String) : Option α :=
  (d.find? (fun p => p.1 == k)).map (fun p => p.2)

/-- Boolean prefix test on character lists (Python `str.startswith`). -/
def startsWithChars : List Char → List Char → Bool
  | [], _ => true
  | _ :: _, [] => false
  | p :: ps, c :: cs => p == c && startsWithChars ps cs

/-- The last four characters of a string, Python `s[-4:]` (the whole string
when it is shorter). -/
def lastFour (c : String) : List Char :=
  c.toList.drop (c.toList.length - 4)

/- ----------------------------------------------------------------- -/
/- Punctuality analyser (`analyse_punctuality`, analysis.py:1131).    -/
/- ----------------------------------------------------------------- -/

/-- A punctuality table: column names plus one association list of raw
cells per row. -/
structure PTable where
  cols : List String
  rows : List (List (String × Cell))
deriving DecidableEq

/-- The `numeric_cols` list of `analyse_punctuality`. -/
def pNumericCols : List String :=
  ["nb_train_prevu", "nb_annulation", "retard_moyen_arrivee",
   "nb_train_retard_sup_15", "nb_train_retard_depart",
   "nb_train_retard_arrivee", "retard_moyen_trains_retard_sup15",
   "prct_cause_infra", "prct_cause_externe", "prct_cause_reseau",
   "prct_cause_gestion", "prct_cause_exploit"]

/-- Columns accessed unconditionally by `analyse_punctuality` (a missing
one is a pandas `KeyError`). -/
def pRequiredCols : List String :=
  ["retard_moyen_arrivee", "retard_moyen_trains_retard_sup15",
   "nb_annulation", "nb_train_prevu"]

/-- Effect of the coercion loop on one cell, keyed by its column name:
columns in `numeric_cols` that exist in the table are re-written through
`pd.to_numeric(..., errors="coerce")`, every other cell is untouched. -/
def coerceCell (cols : List String) (k : String) (v : Cell) : Cell :=
  if k ∈ pNumericCols ∧ k ∈ cols then numToCell (toNumeric v)
  else v

/-- The in-place coercion loop `df[col] = pd.to_numeric(df[col], ...)` for
each listed column present in the table: it rewrites the caller-supplied
table. -/
def coerceTable (t : PTable) : PTable :=
  { cols := t.cols,
    rows := t.rows.map (fun r => r.map (fun p => (p.1, coerceCell t.cols p.1 p.2))) }

/-- Cell of a row at a column (missing key reads as NaN). -/
def cellAt (r : List (String × Cell)) (c : String) : Cell :=
  (alget r c).getD .null

/-- The column `df[c]` as a list of cells. -/
def colCells (t : PTable) (c : String) : List Cell :=
  t.rows.map (fun r => cellAt r c)

/-- pandas `Series.sum()` with default `skipna=True`: missing cells
contribute nothing, an all-missing column sums to `0`. -/
def sumCells (cells : List Cell) : ℚ :=
  (cells.filterMap toNumeric).sum

/-- pandas `Series.mean()`: mean of the non-missing cells, NaN (`none`)
when there are none. -/
def meanCells (cells : List Cell) : Option ℚ :=
  let v := cells.filterMap toNumeric
  if v.isEmpty then none else some (v.sum / v.length)

/-- The summary dict built by `analyse_punctuality`. -/
structure PSummary where
  avg_delay_arrival : Option ℚ
  avg_delay_severe : Option ℚ
  cancellation_rate : Option ℚ
deriving DecidableEq

/-- `"prct_cause_"` as characters. -/
def prctCauseChars : List Char := "prct_cause_".toList

/-- `cause_cols = [c for c in df.columns if c.startswith("prct_cause_")]`. -/
def causeCols (t : PTable) : List String :=
  t.cols.filter (fun c => startsWithChars prctCauseChars c.toList)

/-- The full result of `analyse_punctuality`: the summary frame, the
cause means, and (state passing) the table as the caller sees it after
the call. -/
structure PResult where
  summary : PSummary
  cause_means : List (String × Option ℚ)
  final : PTable
deriving DecidableEq

/-- `analyse_punctuality` embedded with explicit state passing: `final`
is the table as the caller sees it afterwards (the function coerces
numeric columns of its argument in place).  `none` models the `KeyError`
raised when a required column is absent. -/
def analyse_punctuality (t : PTable) : Option PResult :=
  let t2 := coerceTable t
  if ∀ c ∈ pRequiredCols, c ∈ t.cols then
    some ⟨⟨meanCells (colCells t2 "retard_moyen_arrivee"),
           meanCells (colCells t2 "retard_moyen_trains_retard_sup15"),
           fdiv (sumCells (colCells t2 "nb_annulation"))
                (sumCells (colCells t2 "nb_train_prevu"))⟩,
          (causeCols t).map (fun c => (c, meanCells (colCells t2 c))),
          t2⟩
  else none

/- ----------------------------------------------------------------- -/
/- Ridership analyser (`analyse_ridership`, analysis.py:1108).        -/
/- ----------------------------------------------------------------- -/

/-- A ridership row: the `nom_gare` cell plus the numeric cells by column
name (the loader has already coerced `total_voyageurs*` columns, so cells
are numeric-or-missing). -/
abbrev RRow := String × List (String × Option ℚ)

/-- A ridership table. -/
structure RTable where
  cols : List String
  rows : List RRow
deriving DecidableEq

/-- Numeric value of a row at a column, `none` for NaN. -/
def rvalue (r : RRow) (c : String) : Option ℚ :=
  match alget r.2 c with
  | some v => v
  | none => none

/-- `"total_voyageurs_"` as characters. -/
def totalVoyChars : List Char := "total_voyageurs_".toList

/-- `col.startswith("total_voyageurs_") and col[-4:].isdigit()`. -/
def isYearCol (c : String) : Bool :=
  startsWithChars totalVoyChars c.toList &&
    (!(lastFour c).isEmpty && (lastFour c).all Char.isDigit)

/-- The year columns of a ridership table. -/
def yearCols (t : RTable) : List String :=
  t.cols.filter isYearCol

/-- First run of four consecutive digits in a name: the regex
`(\d{4})` extraction used on the totals index. -/
def extract4 : List Char → Option (List Char)
  | [] => none
  | c :: cs =>
    if ((c :: cs).take 4).length == 4 && ((c :: cs).take 4).all Char.isDigit then
      some ((c :: cs).take 4)
    else extract4 cs

/-- The four-digit year key extracted from a column name. -/
def yearKey (c : String) : String :=
  match extract4 c.toList with
  | some w => String.mk w
  | none => ""

/-- `df[c].sum()` over a ridership column (missing excluded). -/
def colSum (t : RTable) (c : String) : ℚ :=
  (t.rows.map (fun r => (rvalue r c).getD 0)).sum

/-- Ascending order on year keys, for `totals.sort_index()`. -/
def keyLE (a b : String × ℚ) : Prop := a.1 ≤ b.1

instance : DecidableRel keyLE := fun a b => inferInstanceAs (Decidable (a.1 ≤ b.1))

instance : IsTotal (String × ℚ) keyLE := ⟨fun a b => le_total a.1 b.1⟩

instance : IsTrans (String × ℚ) keyLE := ⟨fun _ _ _ h1 h2 => le_trans h1 h2⟩

/-- The yearly totals frame: per year column, the skipna column sum keyed
by the extracted year, sorted ascending by key. -/
def totalsOf (t : RTable) : List (String × ℚ) :=
  ((yearCols t).map (fun c => (yearKey c, colSum t c))).insertionSort keyLE

/-- `int(c[-4:])` for a year column. -/
def last4Nat (c : String) : Nat := digitsToNat (lastFour c)

/-- `f"total_voyageurs_{sorted(years)[-1]}"`: the column name rebuilt from
the numerically largest year; `none` when there is no year column (the
`sorted([])[-1]` raises `IndexError`). -/
def reconCol (t : RTable) : Option String :=
  (((yearCols t).map last4Nat).max?).map (fun y => "total_voyageurs_" ++ Nat.repr y)

/-- The column `analyse_ridership` ranks by, `none` when the code raises:
`total_voyageurs_2024` when present, else the rebuilt latest-year column
(which must itself be present, or `df[["nom_gare", col]]` raises
`KeyError`). -/
def selCol (t : RTable) : Option String :=
  if "total_voyageurs_2024" ∈ t.cols then some "total_voyageurs_2024"
  else
    match reconCol t with
    | some c => if c ∈ t.cols then some c else none
    | none => none

/-- `df[["nom_gare", c]]` restricted to one row. -/
def projRow (c : String) (r : RRow) : RRow := (r.1, [(c, rvalue r c)])

/-- `df[["nom_gare", c]]` on the whole table. -/
def projRows (t : RTable) (c : String) : List RRow :=
  t.rows.map (projRow c)

/-- Descending comparison on a column used by `nlargest` (missing read as
0; `nlargest` only ever compares non-missing rows). -/
def descRel (c : String) (a b : RRow) : Prop :=
  (rvalue b c).getD 0 ≤ (rvalue a c).getD 0

instance (c : String) : DecidableRel (descRel c) :=
  fun _ _ => inferInstanceAs (Decidable (_ ≤ _))

instance (c : String) : IsTotal RRow (descRel c) := ⟨fun _ _ => le_total _ _⟩

instance (c : String) : IsTrans RRow (descRel c) :=
  ⟨fun _ _ _ h1 h2 => le_trans h2 h1⟩

/-- pandas `DataFrame.nlargest(n, c)` with the default `keep="first"`.
Rows with a missing value are NOT dropped from the result: when
`n >= len` the slow path `sort_values(ascending=False).head(n)` keeps the
NaN rows at the end, and when `n < len` the fast path appends the NaN
rows (`concat([dropped.iloc[inds], nan_index]).iloc[:findex]`) as padding
up to `n` rows (the long-standing pandas behaviour of GH#28984).  Both
paths equal: take `n` of (non-missing rows sorted descending, then the
missing-value rows in original order). -/
def nlargestR (n : Nat) (c : String) (rows : List RRow) : List RRow :=
  ((rows.filter (fun r => (rvalue r c).isSome)).insertionSort (descRel c) ++
    rows.filter (fun r => !(rvalue r c).isSome)).take n

/-- `rename(columns={c: oc})` on one row. -/
def renameRow (c oc : String) (r : RRow) : RRow :=
  (r.1, r.2.map (fun p => if p.1 == c then (oc, p.2) else p))

/-- The name the ranking value column carries in the returned frame. -/
def outColName (t : RTable) : String :=
  if "total_voyageurs_2024" ∈ t.cols then "total_voyageurs_2024"
  else "total_voyageurs"

/-- Number of rows of `t` whose value at `c` is not missing. -/
def validCount (t : RTable) (c : String) : Nat :=
  (t.rows.filter (fun r => (rvalue r c).isSome)).length

/-- The pair returned by `analyse_ridership`: the totals frame and the
top-10 frame. -/
structure RResult where
  totals : List (String × ℚ)
  top : List RRow
deriving DecidableEq

/-- `analyse_ridership`: the totals frame and the top-10 frame; `none`
models the `IndexError`/`KeyError` raised on the fallback path. -/
def analyse_ridership (t : RTable) : Option RResult :=
  (selCol t).map (fun c =>
    ⟨totalsOf t,
     if "total_voyageurs_2024" ∈ t.cols then
       nlargestR 10 c (projRows t c)
     else
       (nlargestR 10 c (projRows t c)).map (renameRow c "total_voyageurs")⟩)

/- ----------------------------------------------------------------- -/
/- Record loader (`load_json_records`, analysis.py:1028).             -/
/- ----------------------------------------------------------------- -/

/-- One enveloped record: its flat `fields` map (a Python dict). -/
structure JRecord where
  fields : List (String × Cell)
deriving DecidableEq

/-- A well-formed enveloped collection: the `records` sequence. -/
structure JEnvelope where
  records : List JRecord
deriving DecidableEq

/-- The DataFrame built from a list of dicts: columns, and per row the
cell at each column (`none` when the dict lacks the key). -/
structure JTable where
  cols : List String
  rows : List (List (Option Cell))
deriving DecidableEq

/-- Keys in order of first appearance (pandas column union for a list of
dicts). -/
def firstKeys : List String → List String
  | [] => []
  | k :: ks => k :: (firstKeys ks).filter (fun x => x != k)

/-- `pd.DataFrame([rec["fields"] for rec in data["records"]])`. -/
def load_json_records (e : JEnvelope) : JTable :=
  { cols := firstKeys ((e.records.map (fun r => r.fields.map Prod.fst)).flatten),
    rows := e.records.map (fun r =>
      (firstKeys ((e.records.map (fun r => r.fields.map Prod.fst)).flatten)).map
        (fun c => alget r.fields c)) }

/- ----------------------------------------------------------------- -/
/- Emissions estimator (`estimate_emissions`, analysis.py:1187).      -/
/- ----------------------------------------------------------------- -/

/-- `estimate_emissions`: `(distance_km * 14 / 1000, distance_km * 55 / 1000)`. -/
def estimate_emissions (distance_km : ℚ) : ℚ × ℚ :=
  (distance_km * 14 / 1000, distance_km * 55 / 1000)

/- ----------------------------------------------------------------- -/
/- Geodesy (`haversine`, analysis.py:1094).                           -/
/- ----------------------------------------------------------------- -/

/-- `math.radians`. -/
noncomputable def radians (x : ℝ) : ℝ := x * (Real.pi / 180)

/-- The haversine intermediate
`a = sin(dphi/2)**2 + cos(phi1)*cos(phi2)*sin(dlambda/2)**2`. -/
noncomputable def hav_a (lat1 lon1 lat2 lon2 : ℝ) : ℝ :=
  Real.sin (radians (lat2 - lat1) / 2) ^ 2 +
    Real.cos (radians lat1) * Real.cos (radians lat2) *
      Real.sin (radians (lon2 - lon1) / 2) ^ 2

/-- `math.atan2 y x` (the usual two-argument arctangent; `atan2 0 0 = 0`
as in the C library). -/
noncomputable def atan2 (y x : ℝ) : ℝ :=
  if 0 < x then Real.arctan (y / x)
  else if x < 0 then
    (if 0 ≤ y then Real.arctan (y / x) + Real.pi
     else Real.arctan (y / x) - Real.pi)
  else if 0 < y then Real.pi / 2
  else if y < 0 then -(Real.pi / 2)
  else 0

/-- `haversine`: `R * c` with `R = 6371.0` and
`c = 2 * atan2(sqrt(a), sqrt(1 - a))`. -/
noncomputable def haversine (c1 c2 : ℝ × ℝ) : ℝ :=
  6371 * (2 * atan2 (Real.sqrt (hav_a c1.1 c1.2 c2.1 c2.2))
    (Real.sqrt (1 - hav_a c1.1 c1.2 c2.1 c2.2)))

/- ----------------------------------------------------------------- -/
/- Pricing analyser (`analyse_pricing`, analysis.py:1155).            -/
/- ----------------------------------------------------------------- -/

/-- A UIC code value as it sits in a loaded table: either an integer (the
pipeline coerces fare codes with `to_numeric(...).astype("Int64")`) or a
raw string (station codes come from JSON strings). -/
inductive UIC where
  | int (n : Nat)
  | str (s : String)
deriving DecidableEq

/-- Python `str()` applied to a UIC code: decimal rendering of an integer,
the string itself otherwise.  This is the lookup key the code uses on
both sides of the join. -/
def pyStr : UIC → String
  | .int n => Nat.repr n
  | .str s => s

/-- The numeric code a representation denotes (leading zeros ignored),
used to state what a canonicalising comparison would equate. -/
def uicVal : UIC → Option Nat
  | .int n => some n
  | .str s => digitsVal s.toList

/-- A representation with no leading-zero artefact: integers, and strings
that are exactly the decimal rendering of their value. -/
def canonicalUIC : UIC → Prop
  | .int _ => True
  | .str s => (digitsVal s.toList).map Nat.repr = some s

instance : DecidablePred canonicalUIC := fun u =>
  match u with
  | .int _ => .isTrue trivial
  | .str s => inferInstanceAs (Decidable ((digitsVal s.toList).map Nat.repr = some s))

/-- A station row: `code_uic` and `geo_point_2d`, either possibly
missing. -/
structure StationRow where
  code_uic : Option UIC
  geo_point_2d : Option (ℚ × ℚ)
deriving DecidableEq

/-- Python dict assignment `m[k] = v` (last write wins). -/
def dictInsert (m : List (String × (ℚ × ℚ))) (k : String) (v : ℚ × ℚ) :
    List (String × (ℚ × ℚ)) :=
  (k, v) :: m.filter (fun p => p.1 != k)

/-- Python `m.get(k)`. -/
def lookupMap (m : List (String × (ℚ × ℚ))) (k : String) : Option (ℚ × ℚ) :=
  (m.find? (fun p => p.1 == k)).map (fun p => p.2)

/-- The `coord_map` built from the station table after
`dropna(subset=["code_uic", "geo_point_2d"])`: key `str(code_uic)`,
value the coordinate pair, later rows overwriting earlier ones. -/
def coordMap (stations : List StationRow) : List (String × (ℚ × ℚ)) :=
  stations.foldl (fun m r =>
    match r.code_uic, r.geo_point_2d with
    | some u, some g => dictInsert m (pyStr u) g
    | _, _ => m) []

/-- A fare row: the fields `analyse_pricing` reads, plus every other input
column untouched. -/
structure FareRow where
  origine_uic : UIC
  destination_uic : UIC
  prix_min : Option ℚ
  prix_max : Option ℚ
  extra : List (String × Cell)
deriving DecidableEq

/-- An output row of `analyse_pricing`: the input fare row with the three
derived columns appended. -/
structure EnrichedRow where
  fare : FareRow
  distance_km : Option ℝ
  cost_per_km_min : Option ℝ
  cost_per_km_max : Option ℝ

/-- The per-row distance: `haversine` of the two looked-up coordinate
pairs, NaN (`none`) when either UIC lookup misses. -/
noncomputable def distOf (m : List (String × (ℚ × ℚ))) (r : FareRow) : Option ℝ :=
  match lookupMap m (pyStr r.origine_uic), lookupMap m (pyStr r.destination_uic) with
  | some p, some q =>
      some (haversine ((p.1 : ℝ), (p.2 : ℝ)) ((q.1 : ℝ), (q.2 : ℝ)))
  | _, _ => none

/-- `price / dist if dist and not pd.isna(dist) and dist > 0 else nan`:
the division guard of the cost-per-km columns (a missing price divided by
anything is NaN, hence the `Option.map`). -/
noncomputable def costOf (dist : Option ℝ) (price : Option ℚ) : Option ℝ :=
  match dist with
  | some d => if 0 < d then price.map (fun v => (v : ℝ) / d) else none
  | none => none

/-- One iteration of the fare loop of `analyse_pricing`. -/
noncomputable def enrichRow (m : List (String × (ℚ × ℚ))) (r : FareRow) : EnrichedRow :=
  ⟨r, distOf m r, costOf (distOf m r) r.prix_min, costOf (distOf m r) r.prix_max⟩

/-- `analyse_pricing`: copy the fare table and append the three derived
columns; every input row is kept, in order. -/
noncomputable def analyse_pricing (fares : List FareRow) (stations : List StationRow) :
    List EnrichedRow :=
  fares.map (enrichRow (coordMap stations))

/- ----------------------------------------------------------------- -/
/- Concrete tables used to instantiate the claims.                    -/
/- ----------------------------------------------------------------- -/

/-- A one-row ridership table whose only 2024 value is missing. -/
def rOneMissing : RTable :=
  { cols := ["nom_gare", "total_voyageurs_2024"],
    rows := [("Gare A", [("total_voyageurs_2024", none)])] }

/-- A ridership table with a station-name column and zero year-total
columns. -/
def rNoYears : RTable :=
  { cols := ["nom_gare"], rows := [("Gare A", [])] }

/-- A small well-behaved ridership table. -/
def rSample : RTable :=
  { cols := ["nom_gare", "total_voyageurs_2024"],
    rows := [("Gare A", [("total_voyageurs_2024", some 5)]),
             ("Gare B", [("total_voyageurs_2024", some 7)])] }

/-- The punctuality example of the spec: `nb_annulation = [0, 1]`,
`nb_train_prevu = [34, 167]`. -/
def pExample : PTable :=
  { cols := ["nb_train_prevu", "nb_annulation", "retard_moyen_arrivee",
             "retard_moyen_trains_retard_sup15"],
    rows := [[("nb_train_prevu", .num 34), ("nb_annulation", .num 0),
              ("retard_moyen_arrivee", .num 9),
              ("retard_moyen_trains_retard_sup15", .num 0)],
             [("nb_train_prevu", .num 167), ("nb_annulation", .num 1),
              ("retard_moyen_arrivee", .num 18),
              ("retard_moyen_trains_retard_sup15", .num 19)]] }

/-- A punctuality table in which every `nb_train_prevu` value is 0. -/
def pAllZero : PTable :=
  { cols := ["nb_train_prevu", "nb_annulation", "retard_moyen_arrivee",
             "retard_moyen_trains_retard_sup15"],
    rows := [[("nb_train_prevu", .num 0), ("nb_annulation", .num 3),
              ("retard_moyen_arrivee", .num 1),
              ("retard_moyen_trains_retard_sup15", .num 2)]] }

/-- A punctuality table with an unparseable numeric cell. -/
def pUnparseable : PTable :=
  { cols := ["nb_train_prevu", "nb_annulation", "retard_moyen_arrivee",
             "retard_moyen_trains_retard_sup15"],
    rows := [[("nb_train_prevu", .str "abc"), ("nb_annulation", .num 1),
              ("retard_moyen_arrivee", .num 2),
              ("retard_moyen_trains_retard_sup15", .null)]] }

/-- A fare row whose two endpoints carry the same resolvable code. -/
def fareSame : FareRow := ⟨.str "1", .str "1", some 10, some 20, []⟩

/-- One station with code string `"1"` at the origin of coordinates. -/
def stationOne : List StationRow := [⟨some (.str "1"), some (0, 0)⟩]

/-- A fare row whose codes are the integer 1 on both sides. -/
def fareIntOne : FareRow := ⟨.int 1, .int 1, some 10, some 20, []⟩

/-- One station whose code is the string `"01"`: same numeric code as the
integer 1, written with a leading zero. -/
def stationLeadZero : List StationRow := [⟨some (.str "01"), some (0, 0)⟩]

/-- The exact result `analyse_punctuality` returns on `pUnparseable`. -/
def pURes : PResult :=
  ⟨⟨some 2, none, none⟩, [], coerceTable pUnparseable⟩

/- ----------------------------------------------------------------- -/
/- Geodesy lemmas.                                                    -/
/- ----------------------------------------------------------------- -/

theorem arctan_nonneg_of {t : ℝ} (ht : 0 ≤ t) : 0 ≤ Real.arctan t := by
  have h := Real.arctan_strictMono.monotone ht
  rwa [Real.arctan_zero] at h

theorem atan2_nonneg {y x : ℝ} (hy : 0 ≤ y) (hx : 0 ≤ x) : 0 ≤ atan2 y x := by
  unfold atan2
  rcases hx.lt_or_eq with hx1 | hx1
  · rw [if_pos hx1]
    exact arctan_nonneg_of (div_nonneg hy hx1.le)
  · subst hx1
    rw [if_neg (lt_irrefl 0), if_neg (lt_irrefl 0)]
    rcases hy.lt_or_eq with hy1 | hy1
    · rw [if_pos hy1]
      positivity
    · subst hy1
      rw [if_neg (lt_irrefl 0), if_neg (lt_irrefl 0)]

theorem atan2_le_pi_div_two {y x : ℝ} (hy : 0 ≤ y) (hx : 0 ≤ x) :
    atan2 y x ≤ Real.pi / 2 := by
  unfold atan2
  rcases hx.lt_or_eq with hx1 | hx1
  · rw [if_pos hx1]
    exact (Real.arctan_lt_pi_div_two _).le
  · subst hx1
    rw [if_neg (lt_irrefl 0), if_neg (lt_irrefl 0)]
    rcases hy.lt_or_eq with hy1 | hy1
    · rw [if_pos hy1]
    · subst hy1
      rw [if_neg (lt_irrefl 0), if_neg (lt_irrefl 0)]
      positivity

theorem haversine_nonneg (p q : ℝ × ℝ) : 0 ≤ haversine p q := by
  unfold haversine
  have h := atan2_nonneg (Real.sqrt_nonneg (hav_a p.1 p.2 q.1 q.2))
    (Real.sqrt_nonneg (1 - hav_a p.1 p.2 q.1 q.2))
  linarith

theorem haversine_le_pi_R (p q : ℝ × ℝ) : haversine p q ≤ Real.pi * 6371 := by
  unfold haversine
  have h := atan2_le_pi_div_two (Real.sqrt_nonneg (hav_a p.1 p.2 q.1 q.2))
    (Real.sqrt_nonneg (1 - hav_a p.1 p.2 q.1 q.2))
  linarith

theorem hav_a_self (lat lon : ℝ) : hav_a lat lon lat lon = 0 := by
  unfold hav_a radians
  simp [sub_self]

theorem atan2_zero_one : atan2 0 1 = 0 := by
  unfold atan2
  rw [if_pos one_pos]
  simp

theorem haversine_self (p : ℝ × ℝ) : haversine p p = 0 := by
  unfold haversine
  rw [hav_a_self]
  simp [atan2_zero_one]

theorem sin_sq_half_comm (u v k : ℝ) :
    Real.sin ((u - v) * k / 2) ^ 2 = Real.sin ((v - u) * k / 2) ^ 2 := by
  have h : (u - v) * k / 2 = -((v - u) * k / 2) := by ring
  rw [h, Real.sin_neg, neg_sq]

theorem hav_a_symm (lat1 lon1 lat2 lon2 : ℝ) :
    hav_a lat2 lon2 lat1 lon1 = hav_a lat1 lon1 lat2 lon2 := by
  unfold hav_a radians
  rw [sin_sq_half_comm lat1 lat2, sin_sq_half_comm lon1 lon2]
  ring

theorem haversine_symm (p q : ℝ × ℝ) : haversine p q = haversine q p := by
  unfold haversine
  rw [hav_a_symm p.1 p.2 q.1 q.2]

theorem radians_cos_nonneg {lat : ℝ} (h1 : -90 ≤ lat) (h2 : lat ≤ 90) :
    0 ≤ Real.cos (radians lat) := by
  refine Real.cos_nonneg_of_mem_Icc ⟨?_, ?_⟩ <;> unfold radians
  · linarith [mul_nonneg (show (0:ℝ) ≤ lat + 90 by linarith)
      (show (0:ℝ) ≤ Real.pi / 180 by positivity)]
  · linarith [mul_nonneg (show (0:ℝ) ≤ 90 - lat by linarith)
      (show (0:ℝ) ≤ Real.pi / 180 by positivity)]

theorem cos_mul_cos_le (x y : ℝ) :
    Real.cos x * Real.cos y ≤ Real.cos ((y - x) / 2) ^ 2 := by
  have h1 : Real.cos ((y - x) / 2) ^ 2 = (1 + Real.cos (y - x)) / 2 := by
    have h2x : 2 * ((y - x) / 2) = y - x := by ring
    rw [Real.cos_sq, h2x]
    ring
  have h2 := Real.cos_sub y x
  have h3 := Real.cos_add y x
  have h4 := Real.cos_le_one (y + x)
  have h5 : Real.cos y * Real.cos x - Real.sin y * Real.sin x ≤ 1 := by
    rw [← h3]; exact h4
  have h6 : Real.cos x * Real.cos y = Real.cos y * Real.cos x := mul_comm _ _
  rw [h1, h2]
  linarith

theorem hav_a_nonneg {lat1 lat2 : ℝ} (h1 : -90 ≤ lat1) (h2 : lat1 ≤ 90)
    (h3 : -90 ≤ lat2) (h4 : lat2 ≤ 90) (lon1 lon2 : ℝ) :
    0 ≤ hav_a lat1 lon1 lat2 lon2 := by
  unfold hav_a
  have c1 := radians_cos_nonneg h1 h2
  have c2 := radians_cos_nonneg h3 h4
  have s1 : (0:ℝ) ≤ Real.sin (radians (lat2 - lat1) / 2) ^ 2 := sq_nonneg _
  have s2 : (0:ℝ) ≤ Real.sin (radians (lon2 - lon1) / 2) ^ 2 := sq_nonneg _
  have := mul_nonneg (mul_nonneg c1 c2) s2
  linarith

theorem hav_a_le_one {lat1 lat2 : ℝ} (h1 : -90 ≤ lat1) (h2 : lat1 ≤ 90)
    (h3 : -90 ≤ lat2) (h4 : lat2 ≤ 90) (lon1 lon2 : ℝ) :
    hav_a lat1 lon1 lat2 lon2 ≤ 1 := by
  have c1 := radians_cos_nonneg h1 h2
  have c2 := radians_cos_nonneg h3 h4
  have hcc : 0 ≤ Real.cos (radians lat1) * Real.cos (radians lat2) :=
    mul_nonneg c1 c2
  have hs2 : Real.sin (radians (lon2 - lon1) / 2) ^ 2 ≤ 1 := Real.sin_sq_le_one _
  have step1 : Real.cos (radians lat1) * Real.cos (radians lat2) *
      Real.sin (radians (lon2 - lon1) / 2) ^ 2 ≤
      Real.cos (radians lat1) * Real.cos (radians lat2) :=
    mul_le_of_le_one_right hcc hs2
  have step2 : Real.cos (radians lat1) * Real.cos (radians lat2) ≤
      Real.cos (radians (lat2 - lat1) / 2) ^ 2 := by
    have h := cos_mul_cos_le (radians lat1) (radians lat2)
    have harg : (radians lat2 - radians lat1) / 2 = radians (lat2 - lat1) / 2 := by
      unfold radians; ring
    rwa [harg] at h
  have pyth := Real.sin_sq_add_cos_sq (radians (lat2 - lat1) / 2)
  unfold hav_a
  linarith

/-- Claim C7: for every pair of coordinates `A` and `B`,
`haversine A A = 0`, `haversine A B = haversine B A`, and the distance is
never negative. -/
theorem claim_C7_haversine_algebra (A B : ℝ × ℝ) :
    haversine A A = 0 ∧ haversine A B = haversine B A ∧ 0 ≤ haversine A B :=
  ⟨haversine_self A, haversine_symm A B, haversine_nonneg A B⟩

/-- Claim C10: for latitudes in `[-90, 90]` and longitudes in
`[-180, 180]`, the haversine intermediate `a` lies in `[0, 1]` (so both
square roots are well defined) and the distance is at most
`π * 6371` km. -/
theorem claim_C10_haversine_bounds (lat1 lon1 lat2 lon2 : ℝ)
    (h1 : -90 ≤ lat1) (h2 : lat1 ≤ 90) (h3 : -90 ≤ lat2) (h4 : lat2 ≤ 90)
    (h5 : -180 ≤ lon1) (h6 : lon1 ≤ 180) (h7 : -180 ≤ lon2) (h8 : lon2 ≤ 180) :
    (0 ≤ hav_a lat1 lon1 lat2 lon2 ∧ hav_a lat1 lon1 lat2 lon2 ≤ 1) ∧
      haversine (lat1, lon1) (lat2, lon2) ≤ Real.pi * 6371 :=
  ⟨⟨hav_a_nonneg h1 h2 h3 h4 lon1 lon2, hav_a_le_one h1 h2 h3 h4 lon1 lon2⟩,
    haversine_le_pi_R _ _⟩

/-- Witness for claim C10 at the concrete coordinates `(0, 0)`, `(0, 0)`. -/
theorem claim_C10_haversine_bounds_witness :
    ((-90 ≤ (0:ℝ)) ∧ ((0:ℝ) ≤ 90) ∧ (-180 ≤ (0:ℝ)) ∧ ((0:ℝ) ≤ 180)) ∧
      (0 ≤ hav_a 0 0 0 0 ∧ hav_a 0 0 0 0 ≤ 1) ∧
      haversine (0, 0) (0, 0) ≤ Real.pi * 6371 :=
  ⟨by norm_num,
   claim_C10_haversine_bounds 0 0 0 0 (by norm_num) (by norm_num) (by norm_num)
     (by norm_num) (by norm_num) (by norm_num) (by norm_num) (by norm_num)⟩

/-- Claim C8: `estimate_emissions` is exactly the linear model
`d ↦ (d * 14 / 1000, d * 55 / 1000)`; in particular
`estimate_emissions 100 = (1.4, 5.5)`, and a negative distance yields a
negative result without raising. -/
theorem claim_C8_estimate_emissions (d : ℚ) :
    estimate_emissions d = (d * 14 / 1000, d * 55 / 1000) ∧
      estimate_emissions 100 = (1.4, 5.5) ∧
      (d < 0 → (estimate_emissions d).1 < 0 ∧ (estimate_emissions d).2 < 0) := by
  refine ⟨rfl, by norm_num [estimate_emissions, Prod.ext_iff], fun hd => ⟨?_, ?_⟩⟩
  · show d * 14 / 1000 < 0
    linarith
  · show d * 55 / 1000 < 0
    linarith

/-- Witness for claim C8 at the concrete distance `-1`. -/
theorem claim_C8_estimate_emissions_witness :
    ((-1 : ℚ) < 0) ∧ (estimate_emissions (-1)).1 < 0 ∧ (estimate_emissions (-1)).2 < 0 :=
  ⟨by norm_num, (claim_C8_estimate_emissions (-1)).2.2 (by norm_num)⟩

/- ----------------------------------------------------------------- -/
/- Record-loader lemmas and claim C9.                                 -/
/- ----------------------------------------------------------------- -/

theorem mem_firstKeys (k : String) : ∀ l : List String, k ∈ firstKeys l ↔ k ∈ l
  | [] => Iff.rfl
  | x :: xs => by
    simp only [firstKeys, List.mem_cons, List.mem_filter]
    constructor
    · rintro (rfl | ⟨hk, _⟩)
      · exact Or.inl rfl
      · exact Or.inr ((mem_firstKeys k xs).mp hk)
    · rintro (rfl | hk)
      · exact Or.inl rfl
      · by_cases hx : k = x
        · exact Or.inl hx
        · exact Or.inr ⟨(mem_firstKeys k xs).mpr hk, by simpa [bne_iff_ne] using hx⟩

/-- Claim C9: on a well-formed enveloped collection of `N` records,
`load_json_records` yields exactly `N` rows, a column set equal to the
union of the keys of all `fields` maps, and the `i`-th row is built from
the `i`-th record. -/
theorem claim_C9_load_json_records (e : JEnvelope) :
    (load_json_records e).rows.length = e.records.length ∧
      (∀ k, k ∈ (load_json_records e).cols ↔
        ∃ r, r ∈ e.records ∧ k ∈ r.fields.map Prod.fst) ∧
      (∀ i : Nat, (load_json_records e).rows[i]? =
        (e.records[i]?).map (fun r =>
          (load_json_records e).cols.map (fun c => alget r.fields c))) := by
  refine ⟨by simp [load_json_records], fun k => ?_, fun i => ?_⟩
  · simp [load_json_records, mem_firstKeys]
  · simp [load_json_records, List.getElem?_map]

/- ----------------------------------------------------------------- -/
/- Punctuality lemmas and claims C3, C5 and C2.                       -/
/- ----------------------------------------------------------------- -/

theorem alget_map_keyed (g : String → Cell → Cell) (r : List (String × Cell))
    (k : String) :
    alget (r.map (fun p => (p.1, g p.1 p.2))) k = (alget r k).map (g k) := by
  induction r with
  | nil => rfl
  | cons p r ih =>
    unfold alget at ih ⊢
    by_cases h : p.1 == k
    · have hk : p.1 = k := eq_of_beq h
      simp [List.find?, h, hk]
    · simp only [List.map_cons, List.find?, h]
      exact ih

theorem cellAt_coerceRow (cols : List String) (r : List (String × Cell))
    (k : String) :
    cellAt (r.map (fun p => (p.1, coerceCell cols p.1 p.2))) k =
      match alget r k with
      | some v => coerceCell cols k v
      | none => Cell.null := by
  rw [cellAt, alget_map_keyed]
  cases alget r k <;> rfl

theorem sumCells_zero {cells : List Cell} (h : ∀ x ∈ cells, x = Cell.num 0) :
    sumCells cells = 0 := by
  induction cells with
  | nil => rfl
  | cons a l ih =>
    have ha := h a (List.mem_cons_self a l)
    have hl := ih (fun x hx => h x (List.mem_cons_of_mem a hx))
    unfold sumCells at hl ⊢
    rw [ha]
    simp [List.filterMap_cons, toNumeric, hl]

theorem coerceCell_num_zero (cols : List String) (k : String) :
    coerceCell cols k (Cell.num 0) = Cell.num 0 := by
  unfold coerceCell
  split_ifs <;> rfl

theorem analyse_punctuality_rate (t : PTable)
    (h : ∀ c ∈ pRequiredCols, c ∈ t.cols) :
    (analyse_punctuality t).map (fun res => res.summary.cancellation_rate) =
      some (fdiv (sumCells (colCells (coerceTable t) "nb_annulation"))
                 (sumCells (colCells (coerceTable t) "nb_train_prevu"))) := by
  simp only [analyse_punctuality]
  rw [if_pos h]
  rfl

/-- Claim C3: `cancellation_rate` is the ratio of the two column sums,
with no division-by-zero guard: on the spec example rows it is `1/201`,
and a table whose `nb_train_prevu` values are all 0 yields an undefined
(NaN, embedded as `none`) rate without raising. -/
theorem claim_C3_cancellation_rate (t : PTable)
    (hreq : ∀ c ∈ pRequiredCols, c ∈ t.cols) :
    ((analyse_punctuality t).map (fun res => res.summary.cancellation_rate) =
      some (fdiv (sumCells (colCells (coerceTable t) "nb_annulation"))
                 (sumCells (colCells (coerceTable t) "nb_train_prevu")))) ∧
    ((analyse_punctuality pExample).map (fun res => res.summary.cancellation_rate) =
      some (some (1/201))) ∧
    ((∀ r ∈ t.rows, cellAt r "nb_train_prevu" = Cell.num 0) →
      (analyse_punctuality t).map (fun res => res.summary.cancellation_rate) =
        some none) := by
  refine ⟨analyse_punctuality_rate t hreq, ?_, fun hz => ?_⟩
  · rw [analyse_punctuality_rate pExample (by decide)]
    rw [show colCells (coerceTable pExample) "nb_annulation" =
          [Cell.num 0, Cell.num 1] from by decide,
        show colCells (coerceTable pExample) "nb_train_prevu" =
          [Cell.num 34, Cell.num 167] from by decide]
    rw [show sumCells [Cell.num 0, Cell.num 1] = 1 from by
          norm_num [sumCells, List.filterMap_cons, toNumeric],
        show sumCells [Cell.num 34, Cell.num 167] = 201 from by
          norm_num [sumCells, List.filterMap_cons, toNumeric]]
    norm_num [fdiv]
  · rw [analyse_punctuality_rate t hreq]
    have hcol : ∀ x ∈ colCells (coerceTable t) "nb_train_prevu", x = Cell.num 0 := by
      intro x hx
      simp only [colCells, coerceTable, List.map_map, List.mem_map,
        Function.comp] at hx
      rcases hx with ⟨r0, hr0, rfl⟩
      rw [cellAt_coerceRow]
      have h0 := hz r0 hr0
      unfold cellAt at h0
      cases halget : alget r0 "nb_train_prevu" with
      | none =>
        rw [halget] at h0
        simp at h0
      | some v =>
        rw [halget] at h0
        simp only [Option.getD_some] at h0
        subst h0
        exact coerceCell_num_zero t.cols "nb_train_prevu"
    rw [sumCells_zero hcol]
    simp [fdiv]

/-- Witness for claim C3 at the all-zero `nb_train_prevu` table. -/
theorem claim_C3_cancellation_rate_witness :
    ((∀ c ∈ pRequiredCols, c ∈ pAllZero.cols) ∧
      ∀ r ∈ pAllZero.rows, cellAt r "nb_train_prevu" = Cell.num 0) ∧
    (analyse_punctuality pAllZero).map (fun res => res.summary.cancellation_rate) =
      some none :=
  ⟨⟨by decide, by decide⟩,
   (claim_C3_cancellation_rate pAllZero (by decide)).2.2 (by decide)⟩

/-- Counterexample to claim C2 as stated: on a ridership table that has a
station-name column and zero year-total columns, `analyse_ridership`
raises (`sorted([])[-1]` is an `IndexError`) instead of returning a
result; `none` is the embedded image of the raise. -/
theorem claim_C2_no_raise_counterexample : analyse_ridership rNoYears = none := by
  decide

/-- Claim C2, amended: `analyse_ridership` raises exactly when the table
has no `total_voyageurs_2024` column and either no year column at all or
a rebuilt latest-year name that is not a column; and `analyse_punctuality`
returns a result (rather than raising), whatever its cell values, on any
table that carries the schema columns and whose `prct_cause_*` columns
all belong to the coerced `numeric_cols` (an extra non-schema
`prct_cause_*` column of strings would make `df[cause_cols].mean()`
raise, which is why that hypothesis is needed).  Nothing is claimed here
about `analyse_pricing`: its division `row["prix_min"] / dist` can raise
a `TypeError` on a non-numeric price cell, a case outside this embedding,
whose fare rows carry already-coerced numeric prices. -/
theorem claim_C2_no_raise_amended :
    (∀ t : RTable, analyse_ridership t = none ↔
      ("total_voyageurs_2024" ∉ t.cols ∧
        ∀ c, reconCol t = some c → c ∉ t.cols)) ∧
    (∀ t : PTable, (∀ c ∈ pRequiredCols, c ∈ t.cols) →
      (∀ c ∈ causeCols t, c ∈ pNumericCols) →
      (analyse_punctuality t).isSome = true) := by
  constructor
  · intro t
    unfold analyse_ridership
    rw [Option.map_eq_none']
    unfold selCol
    by_cases h24 : "total_voyageurs_2024" ∈ t.cols
    · rw [if_pos h24]
      simp [h24]
    · rw [if_neg h24]
      cases hrec : reconCol t with
      | none => simp [h24]
      | some c0 =>
        by_cases hc0 : c0 ∈ t.cols
        · constructor
          · intro h
            simp [hc0] at h
          · rintro ⟨-, hall⟩
            exact absurd hc0 (hall c0 rfl)
        · constructor
          · intro _
            refine ⟨h24, fun c hc => ?_⟩
            injection hc with hcc
            exact hcc ▸ hc0
          · intro _
            simp [hc0]
  · intro t h1 _
    simp only [analyse_punctuality]
    rw [if_pos h1]
    rfl

/-- Witness for the punctuality half of the amended claim C2, at the
concrete sample table. -/
theorem claim_C2_no_raise_amended_witness :
    ((∀ c ∈ pRequiredCols, c ∈ pExample.cols) ∧
      (∀ c ∈ causeCols pExample, c ∈ pNumericCols)) ∧
    (analyse_punctuality pExample).isSome = true :=
  ⟨⟨by decide, by decide⟩,
   claim_C2_no_raise_amended.2 pExample (by decide) (by decide)⟩

/-- Counterexample to claim C5 as stated: `analyse_punctuality` coerces
the numeric columns of the caller-supplied table in place, so the table
the caller holds afterwards differs from the one passed in. -/
theorem claim_C5_no_mutation_counterexample :
    (analyse_punctuality pUnparseable).map (fun res => res.final) =
      some (coerceTable pUnparseable) ∧
      coerceTable pUnparseable ≠ pUnparseable := by
  constructor <;> decide

/-- Claim C5, amended: `analyse_pricing` returns a new structure that
keeps every input fare row (all fields, order and count) and does not
touch its inputs; `analyse_punctuality`, however, leaves the caller-owned
table coerced in place (its final state is `coerceTable` of the input). -/
theorem claim_C5_frame_amended :
    (∀ (fares : List FareRow) (stations : List StationRow),
      (analyse_pricing fares stations).map (fun r => r.fare) = fares) ∧
    (∀ (t : PTable) (res : PResult), analyse_punctuality t = some res →
      res.final = coerceTable t) := by
  constructor
  · intro fares stations
    have hcomp : ((fun r : EnrichedRow => r.fare) ∘ enrichRow (coordMap stations)) = id := by
      funext r
      rfl
    simp [analyse_pricing, List.map_map, hcomp]
  · intro t res h
    simp only [analyse_punctuality] at h
    by_cases hc : ∀ c ∈ pRequiredCols, c ∈ t.cols
    · rw [if_pos hc] at h
      injection h with h2
      rw [← h2]
    · rw [if_neg hc] at h
      exact absurd h (by simp)

/-- Witness for the punctuality half of the amended claim C5. -/
theorem claim_C5_frame_amended_witness :
    analyse_punctuality pUnparseable = some pURes ∧
      pURes.final = coerceTable pUnparseable := by
  have hA : meanCells (colCells (coerceTable pUnparseable) "retard_moyen_arrivee") =
      some 2 := by
    rw [show colCells (coerceTable pUnparseable) "retard_moyen_arrivee" =
          [Cell.num 2] from by decide]
    norm_num [meanCells, List.filterMap_cons, List.filterMap_nil, toNumeric]
  have hB : meanCells (colCells (coerceTable pUnparseable)
      "retard_moyen_trains_retard_sup15") = none := by
    rw [show colCells (coerceTable pUnparseable)
          "retard_moyen_trains_retard_sup15" = [Cell.null] from by decide]
    decide
  have hC : fdiv (sumCells (colCells (coerceTable pUnparseable) "nb_annulation"))
      (sumCells (colCells (coerceTable pUnparseable) "nb_train_prevu")) = none := by
    rw [show colCells (coerceTable pUnparseable) "nb_train_prevu" =
          [Cell.null] from by decide,
        show sumCells [Cell.null] = 0 from by decide]
    simp [fdiv]
  have hD : (causeCols pUnparseable).map
      (fun c => (c, meanCells (colCells (coerceTable pUnparseable) c))) = [] := by
    decide
  have h1 : analyse_punctuality pUnparseable = some pURes := by
    simp only [analyse_punctuality]
    rw [if_pos (show ∀ c ∈ pRequiredCols, c ∈ pUnparseable.cols from by decide),
      hA, hB, hC, hD]
    rfl
  exact ⟨h1, claim_C5_frame_amended.2 pUnparseable pURes h1⟩

/- ----------------------------------------------------------------- -/
/- Ridership lemmas and claim C1.                                     -/
/- ----------------------------------------------------------------- -/

theorem rvalue_projRow (c : String) (r : RRow) :
    rvalue (projRow c r) c = rvalue r c := by
  simp [projRow, rvalue, alget, List.find?]

theorem rvalue_renameRow_projRow (c oc : String) (r : RRow) :
    rvalue (renameRow c oc (projRow c r)) oc = rvalue r c := by
  simp [projRow, renameRow, rvalue, alget, List.find?]

theorem mem_sortValid {c : String} {rows : List RRow} {r : RRow}
    (h : r ∈ (rows.filter (fun x => (rvalue x c).isSome)).insertionSort (descRel c)) :
    (rvalue r c).isSome = true :=
  (List.mem_filter.mp ((List.mem_insertionSort (descRel c)).mp h)).2

theorem nlargestR_filter_isSome (n : Nat) (c : String) (rows : List RRow) :
    (nlargestR n c rows).filter (fun r => (rvalue r c).isSome) =
      ((rows.filter (fun r => (rvalue r c).isSome)).insertionSort (descRel c)).take n := by
  unfold nlargestR
  rw [List.take_append_eq_append_take, List.filter_append]
  have h1 : (((rows.filter (fun r => (rvalue r c).isSome)).insertionSort
        (descRel c)).take n).filter (fun r => (rvalue r c).isSome) =
      ((rows.filter (fun r => (rvalue r c).isSome)).insertionSort (descRel c)).take n :=
    List.filter_eq_self.mpr
      (fun a ha => mem_sortValid ((List.take_sublist _ _).subset ha))
  have h2 : ((rows.filter (fun r => !(rvalue r c).isSome)).take
        (n - ((rows.filter (fun r => (rvalue r c).isSome)).insertionSort
          (descRel c)).length)).filter (fun r => (rvalue r c).isSome) = [] := by
    refine List.filter_eq_nil_iff.mpr (fun a ha => ?_)
    have h3 := List.of_mem_filter ((List.take_sublist _ _).subset ha)
    simp only [Bool.not_eq_true'] at h3
    simp [h3]
  rw [h1, h2, List.append_nil]

theorem nlargestR_filter_not (n : Nat) (c : String) (rows : List RRow) :
    (nlargestR n c rows).filter (fun r => !(rvalue r c).isSome) =
      (rows.filter (fun r => !(rvalue r c).isSome)).take
        (n - ((rows.filter (fun r => (rvalue r c).isSome)).insertionSort
          (descRel c)).length) := by
  unfold nlargestR
  rw [List.take_append_eq_append_take, List.filter_append]
  have h1 : (((rows.filter (fun r => (rvalue r c).isSome)).insertionSort
        (descRel c)).take n).filter (fun r => !(rvalue r c).isSome) = [] := by
    refine List.filter_eq_nil_iff.mpr (fun a ha => ?_)
    have h3 := mem_sortValid ((List.take_sublist _ _).subset ha)
    simp [h3]
  have h2 : ((rows.filter (fun r => !(rvalue r c).isSome)).take
        (n - ((rows.filter (fun r => (rvalue r c).isSome)).insertionSort
          (descRel c)).length)).filter (fun r => !(rvalue r c).isSome) =
      (rows.filter (fun r => !(rvalue r c).isSome)).take
        (n - ((rows.filter (fun r => (rvalue r c).isSome)).insertionSort
          (descRel c)).length) :=
    List.filter_eq_self.mpr
      (fun a ha => (List.mem_filter.mp ((List.take_sublist _ _).subset ha)).2)
  rw [h1, h2, List.nil_append]

theorem nlargestR_length (n : Nat) (c : String) (rows : List RRow) :
    (nlargestR n c rows).length = min n rows.length := by
  unfold nlargestR
  rw [List.length_take, List.length_append, List.length_insertionSort]
  have hperm := (List.filter_append_perm
    (fun r => (rvalue r c).isSome) rows).length_eq
  rw [List.length_append] at hperm
  rw [hperm]

theorem nlargestR_valid_length (n : Nat) (c : String) (rows : List RRow) :
    ((nlargestR n c rows).filter (fun r => (rvalue r c).isSome)).length =
      min n ((rows.filter (fun r => (rvalue r c).isSome)).length) := by
  rw [nlargestR_filter_isSome, List.length_take, List.length_insertionSort]

theorem nlargestR_sorted (n : Nat) (c : String) (rows : List RRow) :
    List.Pairwise (descRel c)
      ((nlargestR n c rows).filter (fun r => (rvalue r c).isSome)) := by
  rw [nlargestR_filter_isSome]
  exact (List.sorted_insertionSort (descRel c) _).sublist (List.take_sublist n _)

theorem nlargestR_split (n : Nat) (c : String) (rows : List RRow) :
    nlargestR n c rows =
      (nlargestR n c rows).filter (fun r => (rvalue r c).isSome) ++
        (nlargestR n c rows).filter (fun r => !(rvalue r c).isSome) := by
  rw [nlargestR_filter_isSome, nlargestR_filter_not]
  unfold nlargestR
  rw [List.take_append_eq_append_take]

theorem nlargestR_subset {n : Nat} {c : String} {rows : List RRow} {r : RRow}
    (h : r ∈ nlargestR n c rows) : r ∈ rows := by
  unfold nlargestR at h
  have h2 := (List.take_sublist _ _).subset h
  rcases List.mem_append.mp h2 with h3 | h3
  · exact List.mem_of_mem_filter ((List.mem_insertionSort (descRel c)).mp h3)
  · exact List.mem_of_mem_filter h3

theorem filter_projRows (t : RTable) (c : String) :
    (projRows t c).filter (fun r => (rvalue r c).isSome) =
      (t.rows.filter (fun r => (rvalue r c).isSome)).map (projRow c) := by
  unfold projRows
  rw [List.filter_map]
  congr 1
  refine List.filter_congr ?_
  intro x _
  simp [Function.comp, rvalue_projRow]

theorem rvalue_rename_of_mem {t : RTable} {c oc : String} {a : RRow}
    (ha : a ∈ projRows t c) : rvalue (renameRow c oc a) oc = rvalue a c := by
  rcases List.mem_map.mp ha with ⟨a0, _, rfl⟩
  rw [rvalue_renameRow_projRow, rvalue_projRow]

/-- Counterexample to claim C1 as stated: on a one-row table whose single
2024 value is missing, `top_n` is that NaN row itself (pandas `nlargest`
keeps missing-value rows as padding), so the result does include a row
whose value for the year column is missing, contradicting the final
conjunct of the claim. -/
theorem claim_C1_top_n_counterexample :
    (analyse_ridership rOneMissing).map (fun res => res.top) =
      some [("Gare A", [("total_voyageurs_2024", (none : Option ℚ))])] ∧
      (rvalue ("Gare A", [("total_voyageurs_2024", (none : Option ℚ))])
        "total_voyageurs_2024").isSome = false := by
  constructor <;> decide

/-- Claim C1, amended: whenever `analyse_ridership` returns, its `top_n`
frame has exactly `min 10 row_count` rows; the rows with a present
selected-year value come first — exactly `min 10 (number of present
rows)` of them, sorted in descending order of that value — and the
remaining rows of the frame are missing-value rows kept as trailing
padding (so `top_n` can include rows whose value is missing). -/
theorem claim_C1_top_n_amended (t : RTable) (res : RResult) (sc : String)
    (hres : analyse_ridership t = some res) (hsel : selCol t = some sc) :
    res.top.length = min 10 t.rows.length ∧
      List.Pairwise (descRel (outColName t))
        (res.top.filter (fun r => (rvalue r (outColName t)).isSome)) ∧
      (res.top.filter (fun r => (rvalue r (outColName t)).isSome)).length =
        min 10 (validCount t sc) ∧
      res.top = res.top.filter (fun r => (rvalue r (outColName t)).isSome) ++
        res.top.filter (fun r => !(rvalue r (outColName t)).isSome) := by
  unfold analyse_ridership at hres
  rw [hsel, Option.map_some'] at hres
  injection hres with hres2
  have htop : res.top = if "total_voyageurs_2024" ∈ t.cols then
      nlargestR 10 sc (projRows t sc)
    else (nlargestR 10 sc (projRows t sc)).map (renameRow sc "total_voyageurs") := by
    rw [← hres2]
  by_cases h24 : "total_voyageurs_2024" ∈ t.cols
  · have hsc : sc = "total_voyageurs_2024" := by
      unfold selCol at hsel
      rw [if_pos h24] at hsel
      injection hsel with h
      exact h.symm
    rw [htop, if_pos h24]
    unfold outColName
    rw [if_pos h24, ← hsc]
    refine ⟨?_, nlargestR_sorted 10 sc (projRows t sc), ?_, nlargestR_split 10 sc _⟩
    · rw [nlargestR_length]
      unfold projRows
      rw [List.length_map]
    · rw [nlargestR_valid_length, filter_projRows, List.length_map]
      rfl
  · have hoc : outColName t = "total_voyageurs" := by
      unfold outColName
      rw [if_neg h24]
    rw [htop, if_neg h24, hoc]
    have hval : ∀ x ∈ nlargestR 10 sc (projRows t sc),
        rvalue (renameRow sc "total_voyageurs" x) "total_voyageurs" = rvalue x sc :=
      fun x hx => rvalue_rename_of_mem (nlargestR_subset hx)
    have hpos : ((nlargestR 10 sc (projRows t sc)).map
          (renameRow sc "total_voyageurs")).filter
          (fun r => (rvalue r "total_voyageurs").isSome) =
        ((nlargestR 10 sc (projRows t sc)).filter
          (fun r => (rvalue r sc).isSome)).map (renameRow sc "total_voyageurs") := by
      rw [List.filter_map]
      congr 1
      refine List.filter_congr ?_
      intro x hx
      simp only [Function.comp]
      rw [hval x hx]
    have hneg : ((nlargestR 10 sc (projRows t sc)).map
          (renameRow sc "total_voyageurs")).filter
          (fun r => !(rvalue r "total_voyageurs").isSome) =
        ((nlargestR 10 sc (projRows t sc)).filter
          (fun r => !(rvalue r sc).isSome)).map (renameRow sc "total_voyageurs") := by
      rw [List.filter_map]
      congr 1
      refine List.filter_congr ?_
      intro x hx
      simp only [Function.comp]
      rw [hval x hx]
    refine ⟨?_, ?_, ?_, ?_⟩
    · rw [List.length_map, nlargestR_length]
      unfold projRows
      rw [List.length_map]
    · rw [hpos, List.pairwise_map]
      refine (nlargestR_sorted 10 sc (projRows t sc)).imp_of_mem ?_
      intro a b ha hb hab
      unfold descRel at hab ⊢
      rw [hval a (List.mem_of_mem_filter ha), hval b (List.mem_of_mem_filter hb)]
      exact hab
    · rw [hpos, List.length_map, nlargestR_valid_length, filter_projRows,
        List.length_map]
      rfl
    · rw [hpos, hneg, ← List.map_append]
      congr 1
      exact nlargestR_split 10 sc (projRows t sc)

/-- Witness for the amended claim C1 at a concrete two-row table with no
missing values. -/
theorem claim_C1_top_n_amended_witness :
    (analyse_ridership rSample = some ⟨[("2024", 12)],
        [("Gare B", [("total_voyageurs_2024", some 7)]),
         ("Gare A", [("total_voyageurs_2024", some 5)])]⟩ ∧
      selCol rSample = some "total_voyageurs_2024") ∧
    ((RResult.mk [("2024", 12)]
        [("Gare B", [("total_voyageurs_2024", some 7)]),
         ("Gare A", [("total_voyageurs_2024", some 5)])]).top.length =
        min 10 rSample.rows.length ∧
      List.Pairwise (descRel (outColName rSample))
        ((RResult.mk [("2024", 12)]
          [("Gare B", [("total_voyageurs_2024", some 7)]),
           ("Gare A", [("total_voyageurs_2024", some 5)])]).top.filter
          (fun r => (rvalue r (outColName rSample)).isSome)) ∧
      ((RResult.mk [("2024", 12)]
          [("Gare B", [("total_voyageurs_2024", some 7)]),
           ("Gare A", [("total_voyageurs_2024", some 5)])]).top.filter
          (fun r => (rvalue r (outColName rSample)).isSome)).length =
        min 10 (validCount rSample "total_voyageurs_2024") ∧
      (RResult.mk [("2024", 12)]
          [("Gare B", [("total_voyageurs_2024", some 7)]),
           ("Gare A", [("total_voyageurs_2024", some 5)])]).top =
        (RResult.mk [("2024", 12)]
          [("Gare B", [("total_voyageurs_2024", some 7)]),
           ("Gare A", [("total_voyageurs_2024", some 5)])]).top.filter
          (fun r => (rvalue r (outColName rSample)).isSome) ++
        (RResult.mk [("2024", 12)]
          [("Gare B", [("total_voyageurs_2024", some 7)]),
           ("Gare A", [("total_voyageurs_2024", some 5)])]).top.filter
          (fun r => !(rvalue r (outColName rSample)).isSome)) := by
  have hcs : colSum rSample "total_voyageurs_2024" = 12 := by
    have hm : rSample.rows.map (fun r => (rvalue r "total_voyageurs_2024").getD 0) =
        [5, 7] := by decide
    unfold colSum
    rw [hm]
    norm_num [List.sum_cons, List.sum_nil]
  have htot : totalsOf rSample = [("2024", 12)] := by
    unfold totalsOf
    rw [show yearCols rSample = ["total_voyageurs_2024"] from by decide]
    simp only [List.map_cons, List.map_nil, List.insertionSort, List.orderedInsert]
    rw [hcs, show yearKey "total_voyageurs_2024" = "2024" from by decide]
  have hres : analyse_ridership rSample = some ⟨[("2024", 12)],
      [("Gare B", [("total_voyageurs_2024", some 7)]),
       ("Gare A", [("total_voyageurs_2024", some 5)])]⟩ := by
    unfold analyse_ridership
    rw [show selCol rSample = some "total_voyageurs_2024" from by decide,
      Option.map_some',
      if_pos (show "total_voyageurs_2024" ∈ rSample.cols from by decide), htot,
      show nlargestR 10 "total_voyageurs_2024"
          (projRows rSample "total_voyageurs_2024") =
        [("Gare B", [("total_voyageurs_2024", some 7)]),
         ("Gare A", [("total_voyageurs_2024", some 5)])] from by decide]
  exact ⟨⟨hres, by decide⟩,
    claim_C1_top_n_amended rSample _ "total_voyageurs_2024" hres (by decide)⟩

/- ----------------------------------------------------------------- -/
/- Pricing lemmas and claims C4 and C6.                               -/
/- ----------------------------------------------------------------- -/

/-- Counterexample to claim C4 as stated: when both endpoints resolve to
the same station, the computed distance is zero, yet `distance_km` is
present (equal to 0), not missing; only the two cost fields are missing. -/
theorem claim_C4_distance_zero_counterexample :
    (analyse_pricing [fareSame] stationOne).map (fun r => r.distance_km) =
      [some 0] ∧
    (analyse_pricing [fareSame] stationOne).map (fun r => r.cost_per_km_min) =
      [none] ∧
    (analyse_pricing [fareSame] stationOne).map (fun r => r.cost_per_km_max) =
      [none] := by
  have hd0 : distOf (coordMap stationOne) fareSame = some 0 := by
    unfold distOf
    rw [show lookupMap (coordMap stationOne) (pyStr fareSame.origine_uic) =
          some ((0:ℚ), (0:ℚ)) from by decide,
        show lookupMap (coordMap stationOne) (pyStr fareSame.destination_uic) =
          some ((0:ℚ), (0:ℚ)) from by decide]
    rw [show (some (((0:ℚ), (0:ℚ)) : ℚ × ℚ) : Option (ℚ × ℚ)) = some ((0:ℚ), (0:ℚ)) from rfl]
    simp only []
    rw [haversine_self]
  refine ⟨?_, ?_, ?_⟩ <;>
    simp [analyse_pricing, enrichRow, hd0, costOf, lt_irrefl]

/-- Claim C4, amended: per enriched row, `distance_km` is missing exactly
when either UIC lookup misses (a present distance may be 0); the cost
fields equal price divided by distance exactly when the distance is
present and strictly positive, and are missing otherwise. -/
theorem claim_C4_pricing_missing_amended (fares : List FareRow)
    (stations : List StationRow) (r : EnrichedRow)
    (hr : r ∈ analyse_pricing fares stations) :
    (r.distance_km = none ↔
      (lookupMap (coordMap stations) (pyStr r.fare.origine_uic) = none ∨
       lookupMap (coordMap stations) (pyStr r.fare.destination_uic) = none)) ∧
    (∀ d : ℝ, r.distance_km = some d →
      (0 < d → r.cost_per_km_min = r.fare.prix_min.map (fun v => (v : ℝ) / d) ∧
               r.cost_per_km_max = r.fare.prix_max.map (fun v => (v : ℝ) / d)) ∧
      (d ≤ 0 → r.cost_per_km_min = none ∧ r.cost_per_km_max = none)) ∧
    (r.distance_km = none →
      r.cost_per_km_min = none ∧ r.cost_per_km_max = none) := by
  rcases List.mem_map.mp hr with ⟨f, -, rfl⟩
  simp only [enrichRow]
  refine ⟨?_, fun d hd => ⟨fun hpos => ?_, fun hnonpos => ?_⟩, fun hnone => ?_⟩
  · unfold distOf
    cases h1 : lookupMap (coordMap stations) (pyStr f.origine_uic) <;>
      cases h2 : lookupMap (coordMap stations) (pyStr f.destination_uic) <;>
      simp
  · constructor <;>
      · rw [hd]
        simp only [costOf]
        rw [if_pos hpos]
  · constructor <;>
      · rw [hd]
        simp only [costOf]
        rw [if_neg (not_lt.mpr hnonpos)]
  · constructor <;>
      · rw [hnone]
        simp only [costOf]

/-- Witness for the amended claim C4: with an empty station table every
lookup misses, the distance is missing, and both cost fields are
missing. -/
theorem claim_C4_pricing_missing_amended_witness :
    (enrichRow (coordMap []) fareSame ∈ analyse_pricing [fareSame] []) ∧
    (enrichRow (coordMap []) fareSame).distance_km = none ∧
    (enrichRow (coordMap []) fareSame).cost_per_km_min = none ∧
    (enrichRow (coordMap []) fareSame).cost_per_km_max = none := by
  have hmem : enrichRow (coordMap []) fareSame ∈ analyse_pricing [fareSame] [] := by
    unfold analyse_pricing
    exact List.mem_map_of_mem _ (List.mem_singleton.mpr rfl)
  have hd : (enrichRow (coordMap []) fareSame).distance_km = none := rfl
  have h := (claim_C4_pricing_missing_amended [fareSame] [] _ hmem).2.2 hd
  exact ⟨hmem, hd, h.1, h.2⟩

/-- Counterexample to claim C6 as stated: the station code string `"01"`
and the fare code integer 1 denote the same numeric UIC code, yet the
raw-`str()` keys differ, so both lookups miss and the distance is
missing — a false lookup miss caused by a leading zero. -/
theorem claim_C6_leading_zero_counterexample :
    uicVal (UIC.str "01") = uicVal (UIC.int 1) ∧
    (analyse_pricing [fareIntOne] stationLeadZero).map (fun r => r.distance_km) =
      [none] := by
  constructor
  · decide
  · have h1 : lookupMap (coordMap stationLeadZero) (pyStr fareIntOne.origine_uic) =
        none := by decide
    have h2 : lookupMap (coordMap stationLeadZero)
        (pyStr fareIntOne.destination_uic) = none := by decide
    simp [analyse_pricing, enrichRow, distOf, h1, h2]

/-- Claim C6, amended: the join keys on both sides are Python `str()` of
the raw code, so two canonical representations (an integer, or a string
with no leading-zero artefact) of the same numeric code always produce
the same key — integer-versus-string type differences alone never cause
a false lookup miss.  (Leading zeros do, per the counterexample.) -/
theorem claim_C6_uic_canonical_amended (u v : UIC) (n : Nat)
    (hu : canonicalUIC u) (hv : canonicalUIC v)
    (h1 : uicVal u = some n) (h2 : uicVal v = some n) : pyStr u = pyStr v := by
  have key : ∀ w : UIC, canonicalUIC w → uicVal w = some n →
      pyStr w = Nat.repr n := by
    intro w hw hwv
    cases w with
    | int m =>
      simp only [uicVal, Option.some.injEq] at hwv
      subst hwv
      rfl
    | str s =>
      simp only [uicVal] at hwv
      simp only [canonicalUIC] at hw
      rw [hwv] at hw
      simp only [Option.map_some', Option.some.injEq] at hw
      simp only [pyStr]
      exact hw.symm
  rw [key u hu h1, key v hv h2]

/-- Witness for the amended claim C6 at the canonical pair
`"101"` / `101`. -/
theorem claim_C6_uic_canonical_amended_witness :
    (canonicalUIC (UIC.str "101") ∧ canonicalUIC (UIC.int 101) ∧
      uicVal (UIC.str "101") = some 101 ∧ uicVal (UIC.int 101) = some 101) ∧
    pyStr (UIC.str "101") = pyStr (UIC.int 101) :=
  ⟨⟨by decide, by decide, by decide, by decide⟩,
   claim_C6_uic_canonical_amended (UIC.str "101") (UIC.int 101) 101
     (by decide) (by decide) (by decide) (by decide)⟩
